import Mathlib

/-!
Shallow embedding of the client-side WebSocket session logic of the Nexus
front-end (`src/frontend/src/lib/Terminal.svelte`).  The file contains two
components: an SSH terminal panel (`connect`, `disconnect`, the
`ws.onmessage` dispatch, the `terminal.onData` / `terminal.onResize`
handlers) and an AI chat panel (`handleWSMessage`, `sendMessage`,
`clearChat`, `executeCommand`).  State variables of each component become
fields of a structure; each event handler becomes a function from state to
state paired with the list of wire messages it sends.  A WebSocket variable
`ws` (null, or a socket whose readyState may or may not be OPEN) is modelled
as `Option Bool`, where `some true` stands for a non-null socket in the OPEN
state.  Identifiers produced by `generateId()` and timestamps produced by
`new Date()` are passed in as parameters, since they come from the ambient
environment.
-/

/-- Role of a chat entry, mirroring the `role: 'user' | 'assistant'` union
in the `Message` type of the chat component. -/
inductive Role where
  | user
  | assistant
deriving DecidableEq, Repr

/-- A chat entry, mirroring the `Message` type of the chat component
(`{id, role, content, timestamp}`). -/
structure ChatMessage where
  id : String
  role : Role
  content : String
  timestamp : Nat
deriving DecidableEq, Repr

/-- A detected command, mirroring the `DetectedCommand` type
(`{command, safety_level}`). -/
structure DetectedCommand where
  command : String
  safety_level : String
deriving DecidableEq, Repr

/-- Inbound wire messages of the AI chat channel, mirroring the `WSMessage`
union type of the chat component.  `full_message` is `Option String`
because the handler treats it as possibly absent
(`message.full_message || currentAssistantMessage`). -/
inductive WSMessage where
  | connected (ai_session_id : String)
  | message_chunk (content : String) (done : Bool)
  | message_complete (full_message : Option String)
  | command_detected (command : String) (safety_level : String)
  | error (message : String)
  | keepalive
  | pong
deriving DecidableEq, Repr

/-- Outbound wire messages of the AI chat channel: `{type: "pong"}` from the
keepalive handler and `{type: "message", content, include_context}` from
`sendMessage`. -/
inductive AIOut where
  | pong
  | message (content : String) (include_context : Bool)
deriving DecidableEq, Repr

/-- The mutable state of the AI chat component: the `$state` variables
`ws`, `aiSessionId`, `isConnected`, `messages`, `inputMessage`,
`isProcessing`, `currentAssistantMessage`, `detectedCommands`,
`errorMessage`. -/
structure AIState where
  ws : Option Bool
  aiSessionId : Option String
  isConnected : Bool
  messages : List ChatMessage
  inputMessage : String
  isProcessing : Bool
  currentAssistantMessage : String
  detectedCommands : List DetectedCommand
  errorMessage : Option String
deriving DecidableEq, Repr

/-- The JavaScript `String.prototype.trim()`: strips whitespace from both
ends of the string.  (Lean's own `String.trim` is extensionally the same on
ASCII input but is defined by well-founded recursion over byte positions;
this structurally recursive form keeps the definition computable by the
kernel.) -/
def jsTrim (s : String) : String :=
  ⟨((s.data.dropWhile Char.isWhitespace).reverse.dropWhile Char.isWhitespace).reverse⟩

/-- JavaScript truthiness of a possibly-absent string: `undefined` and the
empty string are falsy. -/
def optTruthy : Option String → Bool
  | none => false
  | some f => !(f == "")

/-- The JavaScript expression `full || buffer` for `full` a possibly-absent
string: yields `full` when it is present and truthy, else `buffer`. -/
def jsOrStr : Option String → String → String
  | none, b => b
  | some f, b => if f = "" then b else f

/-- The `handleWSMessage` dispatch of the chat component, case by case:
`connected` records the session id, sets `isConnected` and clears the error;
`message_chunk` appends `content` to `currentAssistantMessage` (the `done`
field is never read); `message_complete` appends an assistant entry built
from `full_message || currentAssistantMessage`, resets the buffer and clears
`isProcessing`, but only under the guard
`currentAssistantMessage || full_message`; `command_detected` appends to
`detectedCommands`; `error` sets `errorMessage`, clears `isProcessing` and
resets the buffer; `keepalive` answers with one `pong` when the socket is
non-null and OPEN; `pong` does nothing. -/
def handleWSMessage (newId : String) (now : Nat) (s : AIState) (m : WSMessage) :
    AIState × List AIOut :=
  match m with
  | .connected sid =>
      ({ s with aiSessionId := some sid, isConnected := true, errorMessage := none }, [])
  | .message_chunk content _done =>
      ({ s with currentAssistantMessage := s.currentAssistantMessage ++ content }, [])
  | .message_complete full =>
      if s.currentAssistantMessage ≠ "" ∨ optTruthy full = true then
        ({ s with
            messages := s.messages ++
              [⟨newId, Role.assistant, jsOrStr full s.currentAssistantMessage, now⟩],
            currentAssistantMessage := "",
            isProcessing := false }, [])
      else
        (s, [])
  | .command_detected cmd lvl =>
      ({ s with detectedCommands := s.detectedCommands ++ [⟨cmd, lvl⟩] }, [])
  | .error msg =>
      ({ s with errorMessage := some msg, isProcessing := false,
                currentAssistantMessage := "" }, [])
  | .keepalive =>
      (s, if s.ws = some true then [AIOut.pong] else [])
  | .pong => (s, [])

/-- The `sendMessage` function of the chat component: a no-op when the
trimmed input is empty, not connected, or already processing; otherwise the
user entry is pushed first, then — only when the socket is non-null and
OPEN — the `message` wire frame is sent, `isProcessing` is set and the
buffer, `detectedCommands` and `errorMessage` are reset for the new turn;
finally `inputMessage` is cleared in either case. -/
def sendMessage (newId : String) (now : Nat) (s : AIState) : AIState × List AIOut :=
  if jsTrim s.inputMessage = "" ∨ s.isConnected = false ∨ s.isProcessing = true then
    (s, [])
  else
    let s1 : AIState :=
      { s with messages := s.messages ++ [⟨newId, Role.user, s.inputMessage, now⟩] }
    if s.ws = some true then
      ({ s1 with isProcessing := true, currentAssistantMessage := "",
                 detectedCommands := [], errorMessage := none, inputMessage := "" },
       [AIOut.message s.inputMessage true])
    else
      ({ s1 with inputMessage := "" }, [])

/-- The `clearChat` function of the chat component: empties `messages` and
`detectedCommands` and clears `errorMessage`; nothing else is touched. -/
def clearChat (s : AIState) : AIState :=
  { s with messages := [], detectedCommands := [], errorMessage := none }

/-- The `executeCommand` function of the chat component.  `hasTarget` models
whether the `onExecuteCommand` prop is present; `userConfirm` models the
boolean answer of the `confirm()` dialog.  The returned `Option String` is
the argument passed to `onExecuteCommand`, `none` when it is not called.
For `safetyLevel = "dangerous"` or `"caution"`, a declined confirmation
returns early; otherwise the command is forwarded when the prop is present,
and `errorMessage` is set when it is absent. -/
def executeCommand (hasTarget userConfirm : Bool) (s : AIState)
    (command safetyLevel : String) : AIState × Option String :=
  if safetyLevel = "dangerous" ∧ userConfirm = false then
    (s, none)
  else if safetyLevel = "caution" ∧ userConfirm = false then
    (s, none)
  else if hasTarget then
    (s, some command)
  else
    ({ s with errorMessage := some "Terminal not connected. Cannot execute command." },
     none)

/-- Folding a list of `message_chunk` events (content paired with the unused
`done` flag) through `handleWSMessage`. -/
def handleChunks (newId : String) (now : Nat) (s : AIState)
    (cs : List (String × Bool)) : AIState :=
  cs.foldl (fun t c => (handleWSMessage newId now t (.message_chunk c.1 c.2)).1) s

/-- Concatenation of the contents of a list of chunks, in arrival order. -/
def concatChunks (cs : List (String × Bool)) : String :=
  cs.foldr (fun c acc => c.1 ++ acc) ""

/-- Inbound wire messages of the terminal channel, mirroring the cases of
the `ws.onmessage` switch of the terminal component. -/
inductive TermInMsg where
  | connected (session_id : String)
  | output (data : String)
  | error (message : String)
  | reconnected (session_id : String)
  | keepalive
  | pong
deriving DecidableEq, Repr

/-- Outbound wire messages of the terminal channel: the `connect` handshake
sent from `ws.onopen`, the `input` and `resize` frames, and the `pong`
keepalive reply. -/
inductive TermOut where
  | connectReq (host : String) (port : Nat) (username password : String)
  | input (data : String)
  | resize (cols rows : Nat)
  | pong
deriving DecidableEq, Repr

/-- The mutable state of the terminal component: the form values `host`,
`port`, `username`, `password`, the flags `isConnected` and `isConnecting`,
the backend `sessionId`, the status display pair, and the `ws` variable
(`none` = null, `some b` = a socket that is OPEN exactly when `b`). -/
structure TermState where
  host : String
  port : Nat
  username : String
  password : String
  ws : Option Bool
  isConnected : Bool
  isConnecting : Bool
  sessionId : Option String
  statusIndicator : String
  statusText : String
deriving DecidableEq, Repr

/-- The `connect` function of the terminal component, up to the creation of
the WebSocket (handler registration carries no state change).  Returns the
new state, whether a new WebSocket was constructed, and the list of error
texts passed to `showError`.  The empty-after-trim validation of `host` and
`username` runs first; then a call while `isConnecting` returns; otherwise
`isConnecting` is set, the status becomes `connecting`, and a fresh socket
(not yet OPEN) replaces `ws`. -/
def connect (s : TermState) : TermState × Bool × List String :=
  if jsTrim s.host = "" ∨ jsTrim s.username = "" then
    (s, false, ["Please enter host and username"])
  else if s.isConnecting = true then
    (s, false, [])
  else
    ({ s with isConnecting := true, statusIndicator := "connecting",
              statusText := "Connecting...", ws := some false },
     true, [])

/-- The `ws.onopen` handler: the socket reaches the OPEN state and, when the
`ws` variable is non-null, the `connect` handshake frame is sent with the
trimmed host and username. -/
def handleTermOpen (s : TermState) : TermState × List TermOut :=
  match s.ws with
  | none => (s, [])
  | some _ =>
      ({ s with ws := some true },
       [TermOut.connectReq (jsTrim s.host) s.port (jsTrim s.username) s.password])

/-- The `ws.onmessage` dispatch of the terminal component, case by case:
`connected` records the session id, sets `isConnected`, clears
`isConnecting` and updates the status; `output` only writes to the display
sink; `error` calls `showError`, sets the status to `error` and clears
`isConnecting` — it touches neither `isConnected` nor `sessionId`;
`reconnected` records the new session id, sets `isConnected` and updates the
status; `keepalive` answers with one `pong` when the socket is non-null and
OPEN; `pong` does nothing. -/
def handleTermMsg (s : TermState) (m : TermInMsg) : TermState × List TermOut :=
  match m with
  | .connected sid =>
      ({ s with sessionId := some sid, isConnected := true, isConnecting := false,
                statusIndicator := "connected",
                statusText := "Connected to " ++ s.host }, [])
  | .output _ => (s, [])
  | .error _ =>
      ({ s with statusIndicator := "error", statusText := "Connection failed",
                isConnecting := false }, [])
  | .reconnected sid =>
      ({ s with sessionId := some sid, isConnected := true,
                statusIndicator := "connected", statusText := "Reconnected" }, [])
  | .keepalive =>
      (s, if s.ws = some true then [TermOut.pong] else [])
  | .pong => (s, [])

/-- The `ws.onclose` handler: when `isConnected` the status display is
updated first; then `isConnected` and `isConnecting` are cleared and `ws`
is nulled.  `sessionId` is not touched. -/
def handleTermClose (s : TermState) : TermState :=
  let s1 :=
    if s.isConnected = true then
      { s with statusIndicator := "disconnected", statusText := "Disconnected" }
    else s
  { s1 with isConnected := false, isConnecting := false, ws := none }

/-- The `disconnect` function of the terminal component: closes and nulls
the socket, clears `isConnected` and `sessionId`, updates the status. -/
def disconnect (s : TermState) : TermState :=
  { s with ws := none, isConnected := false, sessionId := none,
           statusIndicator := "disconnected", statusText := "Disconnected" }

/-- The `terminal.onData` handler: sends the `input` frame only when the
socket is non-null, OPEN, and `isConnected` holds. -/
def sendInput (s : TermState) (data : String) : List TermOut :=
  if s.ws = some true ∧ s.isConnected = true then [TermOut.input data] else []

/-- The `terminal.onResize` handler: sends the `resize` frame only when the
socket is non-null, OPEN, and `isConnected` holds. -/
def sendResize (s : TermState) (cols rows : Nat) : List TermOut :=
  if s.ws = some true ∧ s.isConnected = true then [TermOut.resize cols rows] else []

/-!  General lemmas about the embedding, shared by several results below. -/

/-- Appending to a non-empty string yields a non-empty string. -/
theorem append_ne_empty_left (a b : String) (h : a ≠ "") : a ++ b ≠ "" := by
  intro hab
  apply h
  have hd : (a ++ b).data = a.data ++ b.data := String.data_append a b
  rw [hab] at hd
  have ha : a.data = [] := (List.append_eq_nil.mp hd.symm).1
  cases a
  simp_all

/-- A run of `message_chunk` events only extends `currentAssistantMessage`
by the concatenation of the chunk contents, and leaves `messages`,
`isProcessing`, `detectedCommands` and `errorMessage` alone. -/
theorem handleChunks_spec (i : String) (n : Nat) (cs : List (String × Bool)) :
    ∀ s : AIState,
      (handleChunks i n s cs).currentAssistantMessage
          = s.currentAssistantMessage ++ concatChunks cs
      ∧ (handleChunks i n s cs).messages = s.messages
      ∧ (handleChunks i n s cs).isProcessing = s.isProcessing
      ∧ (handleChunks i n s cs).detectedCommands = s.detectedCommands
      ∧ (handleChunks i n s cs).errorMessage = s.errorMessage := by
  induction cs with
  | nil =>
      intro s
      simp [handleChunks, concatChunks]
  | cons c cs ih =>
      intro s
      have step :
          handleChunks i n s (c :: cs)
            = handleChunks i n
                ({ s with currentAssistantMessage := s.currentAssistantMessage ++ c.1 }) cs := by
        simp [handleChunks, handleWSMessage]
      rcases ih ({ s with currentAssistantMessage := s.currentAssistantMessage ++ c.1 }) with
        ⟨h1, h2, h3, h4, h5⟩
      refine ⟨?_, ?_, ?_, ?_, ?_⟩ <;>
        simp [step, h1, h2, h3, h4, h5, concatChunks, String.append_assoc]

/-- When `sendMessage` transmits anything, the guard passed and the socket
was open, so the new turn starts with an empty `currentAssistantMessage`,
the processing flag set, and exactly one user entry appended. -/
theorem sendMessage_transmits (i : String) (n : Nat) (s : AIState)
    (h : (sendMessage i n s).2 ≠ []) :
    (sendMessage i n s).1.currentAssistantMessage = ""
    ∧ (sendMessage i n s).1.isProcessing = true
    ∧ (sendMessage i n s).1.messages
        = s.messages ++ [⟨i, Role.user, s.inputMessage, n⟩]
    ∧ (sendMessage i n s).2 = [AIOut.message s.inputMessage true] := by
  unfold sendMessage at *
  by_cases hg : jsTrim s.inputMessage = "" ∨ s.isConnected = false ∨ s.isProcessing = true
  · simp [hg] at h
  · by_cases hw : s.ws = some true
    · simp [hg, hw]
    · simp [hg, hw] at h

/-- A sample terminal-panel state in the Connected configuration, used to
instantiate universally quantified results below at a concrete input. -/
def sampleTerm : TermState :=
  { host := "192.168.1.100", port := 22, username := "root", password := "pw",
    ws := some true, isConnected := true, isConnecting := false,
    sessionId := some "abc12345", statusIndicator := "connected",
    statusText := "Connected to 192.168.1.100" }

/-- A sample chat-panel state in the Connected configuration with a pending
user input, used to instantiate results below at a concrete input. -/
def sampleAI : AIState :=
  { ws := some true, aiSessionId := some "ai-1", isConnected := true,
    messages := [], inputMessage := "check disk space", isProcessing := false,
    currentAssistantMessage := "", detectedCommands := [], errorMessage := none }

/-- Claim C8: `clearChat` empties `messages`, `detectedCommands` and the
visible error, leaves the channel (`ws`) and the connection state
(`isConnected`, `aiSessionId`) untouched, and is idempotent. -/
theorem clear_chat_spec (s : AIState) :
    (clearChat s).messages = []
    ∧ (clearChat s).detectedCommands = []
    ∧ (clearChat s).errorMessage = none
    ∧ (clearChat s).ws = s.ws
    ∧ (clearChat s).isConnected = s.isConnected
    ∧ (clearChat s).aiSessionId = s.aiSessionId
    ∧ clearChat (clearChat s) = clearChat s := by
  simp [clearChat]

/-- Claim C10: a `message_chunk` event never finalizes a reply: whatever its
`done` field says, handling it only appends `content` to
`currentAssistantMessage`; `messages`, `isProcessing`, `detectedCommands`
are untouched, nothing is transmitted, and the handler does not depend on
`done` at all. -/
theorem chunk_no_finalize (s : AIState) (c : String) (d : Bool) (i : String) (n : Nat) :
    handleWSMessage i n s (.message_chunk c d)
      = ({ s with currentAssistantMessage := s.currentAssistantMessage ++ c }, [])
    ∧ (handleWSMessage i n s (.message_chunk c d)).1.messages = s.messages
    ∧ (handleWSMessage i n s (.message_chunk c d)).1.isProcessing = s.isProcessing
    ∧ (handleWSMessage i n s (.message_chunk c d)).1.detectedCommands = s.detectedCommands
    ∧ (handleWSMessage i n s (.message_chunk c d)).2 = []
    ∧ handleWSMessage i n s (.message_chunk c true)
        = handleWSMessage i n s (.message_chunk c false) := by
  simp [handleWSMessage]

/-- Claim C9: a `keepalive` event on either channel, with the socket open,
produces exactly one `pong` frame and returns the state unchanged — no
field of either session is mutated. -/
theorem keepalive_pong_frame (t : TermState) (a : AIState) (i : String) (n : Nat)
    (ht : t.ws = some true) (ha : a.ws = some true) :
    handleTermMsg t TermInMsg.keepalive = (t, [TermOut.pong])
    ∧ handleWSMessage i n a WSMessage.keepalive = (a, [AIOut.pong]) := by
  simp [handleTermMsg, handleWSMessage, ht, ha]

/-- Concrete instantiation of `keepalive_pong_frame` at the sample states. -/
theorem keepalive_pong_frame_witness :
    handleTermMsg sampleTerm TermInMsg.keepalive = (sampleTerm, [TermOut.pong])
    ∧ handleWSMessage "m1" 0 sampleAI WSMessage.keepalive = (sampleAI, [AIOut.pong]) :=
  keepalive_pong_frame sampleTerm sampleAI "m1" 0 rfl rfl

/-- Claim C4: the `terminal.onData` and `terminal.onResize` handlers
transmit nothing while not Connected, and when they do transmit, the
session is Connected and the frame is exactly the corresponding `input` /
`resize` wire message. -/
theorem terminal_send_requires_connected (s : TermState) (data : String)
    (cols rows : Nat) :
    (s.isConnected = false → sendInput s data = [] ∧ sendResize s cols rows = [])
    ∧ (sendInput s data ≠ [] →
        s.isConnected = true ∧ sendInput s data = [TermOut.input data])
    ∧ (sendResize s cols rows ≠ [] →
        s.isConnected = true ∧ sendResize s cols rows = [TermOut.resize cols rows]) := by
  unfold sendInput sendResize
  by_cases h : s.ws = some true ∧ s.isConnected = true <;> simp_all

/-- Concrete instantiation of `terminal_send_requires_connected`: in a
disconnected sample state nothing is transmitted. -/
theorem terminal_send_requires_connected_witness :
    sendInput { sampleTerm with isConnected := false } "ls\n" = []
    ∧ sendResize { sampleTerm with isConnected := false } 80 24 = [] :=
  (terminal_send_requires_connected { sampleTerm with isConnected := false }
    "ls\n" 80 24).1 rfl

/-- Claim C7: `connect` with host or username empty after trimming fails
the validation before any network action: the surfaced error is the literal
validation text, no WebSocket is constructed, and the state is returned
unchanged. -/
theorem connect_validation (s : TermState)
    (h : jsTrim s.host = "" ∨ jsTrim s.username = "") :
    connect s = (s, false, ["Please enter host and username"]) := by
  unfold connect
  rw [if_pos h]

/-- Concrete instantiation of `connect_validation` at a whitespace-only
host. -/
theorem connect_validation_witness :
    connect { sampleTerm with host := "   " }
      = ({ sampleTerm with host := "   " }, false,
         ["Please enter host and username"]) :=
  connect_validation { sampleTerm with host := "   " } (Or.inl (by decide))

/-- Claim C1: starting from a sent user message (so `sendMessage` actually
transmitted), after any run of `message_chunk` events followed by a
`message_complete` whose `full_message` is absent, every entry appended to
the message log beyond the post-send log is an assistant entry whose
content is the concatenation of the chunk contents in arrival order. -/
theorem assistant_stream_concat (s0 : AIState) (i1 i2 : String) (n1 n2 : Nat)
    (cs : List (String × Bool))
    (hsent : (sendMessage i1 n1 s0).2 ≠ []) :
    ∀ e ∈ (List.drop ((sendMessage i1 n1 s0).1.messages.length)
        ((handleWSMessage i2 n2
          (handleChunks i2 n2 (sendMessage i1 n1 s0).1 cs)
          (.message_complete none)).1).messages),
      e.role = Role.assistant ∧ e.content = concatChunks cs := by
  obtain ⟨hbuf, -, -, -⟩ := sendMessage_transmits i1 n1 s0 hsent
  obtain ⟨hb2, hm2, -, -, -⟩ := handleChunks_spec i2 n2 cs (sendMessage i1 n1 s0).1
  have hb2' : (handleChunks i2 n2 (sendMessage i1 n1 s0).1 cs).currentAssistantMessage
      = concatChunks cs := by
    rw [hb2, hbuf, String.empty_append]
  by_cases hc : concatChunks cs = ""
  · have hfin :
        (handleWSMessage i2 n2 (handleChunks i2 n2 (sendMessage i1 n1 s0).1 cs)
          (.message_complete none)).1.messages
          = (sendMessage i1 n1 s0).1.messages := by
      simp [handleWSMessage, hb2', hc, optTruthy, hm2]
    intro e he
    rw [hfin, List.drop_length] at he
    cases he
  · have hfin :
        (handleWSMessage i2 n2 (handleChunks i2 n2 (sendMessage i1 n1 s0).1 cs)
          (.message_complete none)).1.messages
          = (sendMessage i1 n1 s0).1.messages
              ++ [⟨i2, Role.assistant, concatChunks cs, n2⟩] := by
      simp [handleWSMessage, hb2', hc, optTruthy, hm2, jsOrStr]
    intro e he
    rw [hfin, List.drop_left] at he
    simp at he
    subst he
    exact ⟨rfl, rfl⟩

/-- Concrete instantiation of `assistant_stream_concat`: sending
`check disk space` and streaming the chunks `Run ` and `df -h` finalizes to
an assistant entry reading `Run df -h`. -/
theorem assistant_stream_concat_witness :
    (sendMessage "u1" 0 sampleAI).2 ≠ []
    ∧ ∀ e ∈ (List.drop ((sendMessage "u1" 0 sampleAI).1.messages.length)
        ((handleWSMessage "a1" 1
          (handleChunks "a1" 1 (sendMessage "u1" 0 sampleAI).1
            [("Run ", false), ("df -h", true)])
          (.message_complete none)).1).messages),
        e.role = Role.assistant
        ∧ e.content = concatChunks [("Run ", false), ("df -h", true)] :=
  ⟨by decide,
   assistant_stream_concat sampleAI "u1" "a1" 0 1
     [("Run ", false), ("df -h", true)] (by decide)⟩

/-- Claim C6: the streaming buffer is reset and the processing flag cleared
exactly by a finalizing `message_complete` or by an `error`; an `error`
discards the partial text without appending any entry; no other inbound
event clears a set processing flag or empties a non-empty buffer. -/
theorem streaming_reset_exactly (s : AIState) (m : WSMessage) (i : String) (n : Nat) :
    ((∃ msg, m = WSMessage.error msg) →
        (handleWSMessage i n s m).1.currentAssistantMessage = ""
        ∧ (handleWSMessage i n s m).1.isProcessing = false
        ∧ (handleWSMessage i n s m).1.messages = s.messages)
    ∧ (∀ full, m = WSMessage.message_complete full →
        (handleWSMessage i n s m).1.messages ≠ s.messages →
        (handleWSMessage i n s m).1.currentAssistantMessage = ""
        ∧ (handleWSMessage i n s m).1.isProcessing = false)
    ∧ (s.isProcessing = true → (handleWSMessage i n s m).1.isProcessing = false →
        (∃ msg, m = WSMessage.error msg) ∨ (∃ full, m = WSMessage.message_complete full))
    ∧ (s.currentAssistantMessage ≠ "" →
        (handleWSMessage i n s m).1.currentAssistantMessage = "" →
        (∃ msg, m = WSMessage.error msg) ∨ (∃ full, m = WSMessage.message_complete full)) := by
  refine ⟨?_, ?_, ?_, ?_⟩
  · rintro ⟨msg, rfl⟩
    simp [handleWSMessage]
  · rintro full rfl hne
    by_cases hg : s.currentAssistantMessage ≠ "" ∨ optTruthy full = true
    · simp [handleWSMessage, hg]
    · exfalso
      apply hne
      simp [handleWSMessage, hg]
  · intro h1 h2
    cases m with
    | error msg => exact Or.inl ⟨msg, rfl⟩
    | message_complete full => exact Or.inr ⟨full, rfl⟩
    | connected sid => rw [show (handleWSMessage i n s (.connected sid)).1.isProcessing
        = s.isProcessing from rfl, h1] at h2; cases h2
    | message_chunk c d => rw [show (handleWSMessage i n s (.message_chunk c d)).1.isProcessing
        = s.isProcessing from rfl, h1] at h2; cases h2
    | command_detected c l => rw [show (handleWSMessage i n s (.command_detected c l)).1.isProcessing
        = s.isProcessing from rfl, h1] at h2; cases h2
    | keepalive => rw [show (handleWSMessage i n s .keepalive).1.isProcessing
        = s.isProcessing from rfl, h1] at h2; cases h2
    | pong => rw [show (handleWSMessage i n s .pong).1.isProcessing
        = s.isProcessing from rfl, h1] at h2; cases h2
  · intro h1 h2
    cases m with
    | error msg => exact Or.inl ⟨msg, rfl⟩
    | message_complete full => exact Or.inr ⟨full, rfl⟩
    | connected sid => exact absurd h2 h1
    | message_chunk c d =>
        exact absurd h2 (append_ne_empty_left s.currentAssistantMessage c h1)
    | command_detected c l => exact absurd h2 h1
    | keepalive => exact absurd h2 h1
    | pong => exact absurd h2 h1

/-- Concrete instantiation of `streaming_reset_exactly`: an `error` while a
reply with partial text `par` is in flight discards the text, clears the
flag, and appends nothing. -/
theorem streaming_reset_exactly_witness :
    (handleWSMessage "w" 0
      { sampleAI with isProcessing := true, currentAssistantMessage := "par" }
      (WSMessage.error "boom")).1.currentAssistantMessage = ""
    ∧ (handleWSMessage "w" 0
      { sampleAI with isProcessing := true, currentAssistantMessage := "par" }
      (WSMessage.error "boom")).1.isProcessing = false
    ∧ (handleWSMessage "w" 0
      { sampleAI with isProcessing := true, currentAssistantMessage := "par" }
      (WSMessage.error "boom")).1.messages
        = ({ sampleAI with
              isProcessing := true,
              currentAssistantMessage := "par" } : AIState).messages :=
  (streaming_reset_exactly
    { sampleAI with isProcessing := true, currentAssistantMessage := "par" }
    (WSMessage.error "boom") "w" 0).1 ⟨"boom", rfl⟩

/-- Claim C2, counterexample: it is not true that every transition out of
Connected clears the session id — a Connected sample state keeps
`sessionId` across both a remote close and an `error` message (the `error`
handler does not even drop `isConnected`). -/
theorem terminal_session_id_claim_cex :
    ¬ (∀ s : TermState, s.isConnected = true →
        (handleTermClose s).sessionId = none
        ∧ (handleTermMsg s (TermInMsg.error "boom")).1.isConnected = false
        ∧ (handleTermMsg s (TermInMsg.error "boom")).1.sessionId = none) := by
  intro h
  exact absurd (h sampleTerm rfl).1 (by decide)

/-- Claim C2 as amended: `sessionId` is assigned by `connected` and
`reconnected` and cleared only by the local `disconnect`; the `error`
handler and the remote-close handler leave it unchanged (and `error` also
leaves `isConnected` unchanged). -/
theorem terminal_session_id_lifecycle (s : TermState) (msg sid : String) :
    (handleTermClose s).sessionId = s.sessionId
    ∧ (handleTermMsg s (.error msg)).1.sessionId = s.sessionId
    ∧ (handleTermMsg s (.error msg)).1.isConnected = s.isConnected
    ∧ (disconnect s).sessionId = none
    ∧ (handleTermMsg s (.connected sid)).1.sessionId = some sid
    ∧ (handleTermMsg s (.connected sid)).1.isConnected = true
    ∧ (handleTermMsg s (.reconnected sid)).1.sessionId = some sid
    ∧ (handleTermMsg s (.reconnected sid)).1.isConnected = true := by
  unfold handleTermClose handleTermMsg disconnect
  by_cases h : s.isConnected = true <;> simp [h]

/-- Claim C5, counterexample: a second `connect` is not a no-op in every
non-Idle state — from the Connected sample state (not currently
Connecting), `connect` proceeds: it constructs a second WebSocket and
mutates the state back to Connecting. -/
theorem connect_noop_claim_cex :
    ¬ (∀ s : TermState, (s.isConnecting = true ∨ s.isConnected = true) →
        (connect s).1 = s ∧ (connect s).2.1 = false) := by
  intro h
  exact absurd (h sampleTerm (Or.inr rfl)).2 (by decide)

/-- Claim C5 as amended: only the Connecting state is guarded — a `connect`
while `isConnecting` changes nothing and opens no channel, while a call in
any other state that passes validation (in particular while Connected)
opens a fresh channel and re-enters Connecting. -/
theorem connect_single_flight (s : TermState) :
    (s.isConnecting = true → (connect s).1 = s ∧ (connect s).2.1 = false)
    ∧ (s.isConnecting = false → jsTrim s.host ≠ "" → jsTrim s.username ≠ "" →
        (connect s).2.1 = true
        ∧ (connect s).1.isConnecting = true
        ∧ (connect s).1.statusIndicator = "connecting") := by
  unfold connect
  by_cases hv : jsTrim s.host = "" ∨ jsTrim s.username = ""
  · refine ⟨fun hc => by simp [hv], fun h1 h2 h3 => ?_⟩
    rcases hv with hv | hv
    · exact absurd hv h2
    · exact absurd hv h3
  · refine ⟨fun hc => by simp [hv, hc], fun h1 h2 h3 => by simp [hv, h1]⟩

/-- Concrete instantiation of `connect_single_flight`: while Connecting the
call is a no-op, and from the Connected sample state it opens a channel. -/
theorem connect_single_flight_witness :
    ((connect { sampleTerm with isConnecting := true }).1
        = { sampleTerm with isConnecting := true }
      ∧ (connect { sampleTerm with isConnecting := true }).2.1 = false)
    ∧ ((connect sampleTerm).2.1 = true
      ∧ (connect sampleTerm).1.isConnecting = true
      ∧ (connect sampleTerm).1.statusIndicator = "connecting") :=
  ⟨(connect_single_flight { sampleTerm with isConnecting := true }).1 rfl,
   (connect_single_flight sampleTerm).2 rfl (by decide) (by decide)⟩

/-- Claim C3, counterexample: with no terminal target registered it is not
true that a user-visible error is always surfaced — a declined confirmation
of a dangerous command returns early, surfacing nothing. -/
theorem execute_command_gating_cex :
    ¬ (∀ (s : AIState) (cmd lvl : String) (confirm : Bool),
        ((executeCommand false confirm s cmd lvl).1.errorMessage).isSome = true
        ∧ (executeCommand false confirm s cmd lvl).2 = none) := by
  intro h
  exact absurd (h sampleAI "rm -rf /" "dangerous" false).1 (by decide)

/-- Claim C3 as amended: with a registered target, `dangerous` and
`caution` commands are forwarded exactly when confirmed and `safe` commands
unconditionally, all without state change; with no target, nothing is ever
forwarded, and the "Terminal not connected" error is surfaced exactly when
the flow passes the confirmation gate (tier `safe`, or a confirmed
`dangerous`/`caution`) — a declined confirmation changes nothing. -/
theorem execute_command_gating (s : AIState) (cmd : String) (confirm : Bool) :
    ((executeCommand true confirm s cmd "dangerous").2
        = if confirm then some cmd else none)
    ∧ ((executeCommand true confirm s cmd "caution").2
        = if confirm then some cmd else none)
    ∧ (executeCommand true confirm s cmd "safe").2 = some cmd
    ∧ (executeCommand true confirm s cmd "dangerous").1 = s
    ∧ (executeCommand true confirm s cmd "caution").1 = s
    ∧ (executeCommand true confirm s cmd "safe").1 = s
    ∧ (executeCommand false confirm s cmd "safe").2 = none
    ∧ (executeCommand false confirm s cmd "safe").1.errorMessage
        = some "Terminal not connected. Cannot execute command."
    ∧ (confirm = true →
        (executeCommand false confirm s cmd "dangerous").2 = none
        ∧ (executeCommand false confirm s cmd "dangerous").1.errorMessage
            = some "Terminal not connected. Cannot execute command."
        ∧ (executeCommand false confirm s cmd "caution").2 = none
        ∧ (executeCommand false confirm s cmd "caution").1.errorMessage
            = some "Terminal not connected. Cannot execute command.")
    ∧ (confirm = false →
        executeCommand false confirm s cmd "dangerous" = (s, none)
        ∧ executeCommand false confirm s cmd "caution" = (s, none)) := by
  cases confirm <;> simp [executeCommand]

/-- Concrete instantiation of `execute_command_gating`: a confirmed
dangerous command with no target surfaces the error and forwards
nothing. -/
theorem execute_command_gating_witness :
    (executeCommand false true sampleAI "rm -rf /" "dangerous").2 = none
    ∧ (executeCommand false true sampleAI "rm -rf /" "dangerous").1.errorMessage
        = some "Terminal not connected. Cannot execute command." := by
  obtain ⟨-, -, -, -, -, -, -, -, h9, -⟩ :=
    execute_command_gating sampleAI "rm -rf /" true
  exact ⟨(h9 rfl).1, (h9 rfl).2.1⟩
